import Mathlib

/-!
Verification of the client-side data-synchronization behaviour of the
question-and-answer front end (`src/frontend/src/App.js`).  The file ships two
near-duplicate React components: a themed "ImmigrantConnect" variant and a
generic "QA Platform" variant.  Both hold all UI state in component state
plus one persisted value (the `token` key of browser local storage) and talk
to a remote HTTP API through a single gateway function `apiRequest`.

The embedding below is shallow: each event handler becomes a pure function
from the component state (plus the outcome of every HTTP response the handler
awaits) to the new component state together with the list of observable side
effects (requests issued, alerts, console logs).  JavaScript string
operations used by the code (`split(',')`, `trim()`, truthiness,
`encodeURIComponent`) are modelled explicitly.
-/

namespace QAApp

/-! ## JavaScript string primitives -/

/-- Truthiness of a nullable JavaScript string: `null` and `""` are falsy. -/
def strTruthy : Option String → Bool
  | none => false
  | some s => !(s == "")

/-- The WhiteSpace and LineTerminator code points recognised by
JavaScript's `String.prototype.trim`. -/
def isJsWhitespace (c : Char) : Bool :=
  let n := c.toNat
  n == 9 || n == 10 || n == 11 || n == 12 || n == 13 || n == 32 || n == 160 ||
  n == 0x1680 || (0x2000 ≤ n && n ≤ 0x200A) || n == 0x2028 || n == 0x2029 ||
  n == 0x202F || n == 0x205F || n == 0x3000 || n == 0xFEFF

/-- JavaScript `s.trim()`: strip leading and trailing whitespace. -/
def jsTrim (s : String) : String :=
  String.mk (((s.toList.dropWhile isJsWhitespace).reverse.dropWhile isJsWhitespace).reverse)

/-- Helper for `jsSplitComma`: accumulate the current piece (reversed). -/
def jsSplitCommaAux : List Char → List Char → List String
  | [], acc => [String.mk acc.reverse]
  | c :: rest, acc =>
      if c == ',' then String.mk acc.reverse :: jsSplitCommaAux rest []
      else jsSplitCommaAux rest (c :: acc)

/-- JavaScript `s.split(',')`: `"" ↦ [""]`, `"a,b" ↦ ["a","b"]`,
`"a," ↦ ["a",""]`. -/
def jsSplitComma (s : String) : List String :=
  jsSplitCommaAux s.toList []

/-- Upper-case hexadecimal digit. -/
def hexDigit (n : Nat) : Char :=
  if n < 10 then Char.ofNat (48 + n) else Char.ofNat (55 + n)

/-- Percent-encoding of one byte, `%XX` with upper-case hex. -/
def percentByte (b : UInt8) : String :=
  String.mk [Char.ofNat 37, hexDigit (b.toNat / 16), hexDigit (b.toNat % 16)]

/-- Characters left unescaped by JavaScript `encodeURIComponent`:
letters, digits and `- _ . ! ~ * ' ( )`. -/
def isUriUnreserved (c : Char) : Bool :=
  c.isAlpha || c.isDigit ||
  c.toNat == 45 || c.toNat == 95 || c.toNat == 46 || c.toNat == 33 ||
  c.toNat == 126 || c.toNat == 42 || c.toNat == 39 || c.toNat == 40 || c.toNat == 41

/-- JavaScript `encodeURIComponent`: unreserved characters pass through,
every other code point is replaced by the percent-encoding of its UTF-8
bytes. -/
def encodeURIComponent (s : String) : String :=
  s.toList.foldl
    (fun acc c =>
      if isUriUnreserved c then acc.push c
      else acc ++ String.join ((String.utf8EncodeChar c).map percentByte))
    ""

/-- The tag parsing shared verbatim by both variants of
`handleCreateQuestion`:
`questionData.tags.split(',').map(tag => tag.trim()).filter(tag => tag)`. -/
def parseTags (s : String) : List String :=
  ((jsSplitComma s).map jsTrim).filter (fun t => t ≠ "")

/-! ## Data model (remote-owned entities, transient client copies) -/

/-- A user profile as returned by `GET /api/me`. -/
structure User where
  id : String
  username : String
  full_name : String
  reputation : Int
deriving DecidableEq

/-- A question as rendered by the list and detail views. -/
structure Question where
  id : String
  title : String
  content : String
  author_username : String
  tags : List String
  votes : Int
  views : Nat
  answers_count : Nat
  created_at : String
  urgency : String
deriving DecidableEq

/-- An answer as rendered in the detail view. -/
structure Answer where
  id : String
  content : String
  author_username : String
  votes : Int
  created_at : String
deriving DecidableEq

/-- One chat transcript entry `{ text, sender }`; `sender` is the literal
string `"user"` or `"ai"`. -/
structure ChatMsg where
  text : String
  sender : String
deriving DecidableEq

/-- The login form buffer. -/
structure LoginData where
  username : String
  password : String
deriving DecidableEq

/-- The registration form buffer (themed variant's field set). -/
structure RegisterData where
  username : String
  email : String
  password : String
  full_name : String
  bio : String
  origin_country : String
  current_location : String
  immigration_status : String
deriving DecidableEq

/-- The new-question form buffer of the themed variant. -/
structure QuestionData where
  title : String
  content : String
  tags : String
  category : String
  urgency : String
deriving DecidableEq

/-- The new-question form buffer of the generic variant. -/
structure QuestionDataG where
  title : String
  content : String
  tags : String
deriving DecidableEq

/-- `POST /api/login` and `POST /api/register` both resolve to
`{ access_token }`. -/
structure AuthResponse where
  access_token : String
deriving DecidableEq

/-- `POST /api/chat` / `POST /api/immigration-chat` resolve to
`{ response }`. -/
structure ChatResponse where
  response : String
deriving DecidableEq

/-! ## Requests and observable effects -/

/-- The JSON bodies the application serialises into outbound requests. -/
inductive ReqBody where
  | loginBody (d : LoginData)
  | registerBody (d : RegisterData)
  | createQuestion (title content : String) (tags : List String) (category urgency : String)
  | createQuestionG (title content : String) (tags : List String)
  | createAnswer (content : String)
  | vote (user_id target_id target_type : String) (value : Int)
  | chat (message : String)
  | factCheck (answer_id question_title answer_content : String)
deriving DecidableEq

/-- Observable side effects of a handler, in program order.  The `auth`
field of a request is the value of its `Authorization` header (`none` when
the header is absent). -/
inductive Effect where
  | request (method url : String) (body : Option ReqBody) (auth : Option String)
  | alert (msg : String)
  | consoleError (msg : String)
deriving DecidableEq

/-- The `Authorization` header produced by `apiRequest`'s
`...(token && { Authorization: Bearer token })` spread: present exactly
when the token is truthy. -/
def authHeader (token : Option String) : Option String :=
  match token with
  | none => none
  | some t => if t = "" then none else some ("Bearer " ++ t)

/-! ## The API gateway -/

/-- Outcome of `response.json().catch(...)` on a non-OK response body:
either the body parsed, carrying an optional string `detail` field, or it
did not parse as JSON. -/
inductive ErrBody where
  | parsed (detail : Option String)
  | unparsable
deriving DecidableEq

/-- An HTTP response as observed by `apiRequest`: the `ok` flag, the parsed
JSON body used on the success path, and the parse outcome of the error
body used on the failure path. -/
structure HttpResponse (α : Type) where
  ok : Bool
  body : α
  errBody : ErrBody
deriving DecidableEq

/-- `await response.json().catch(() => ({ detail: 'Network error' }))`:
the `detail` field of the recovered payload. -/
def caughtDetail : ErrBody → Option String
  | .unparsable => some "Network error"
  | .parsed d => d

/-- JavaScript `x || fallback` on a nullable string. -/
def jsStrOr (s : Option String) (fallback : String) : String :=
  match s with
  | none => fallback
  | some v => if v = "" then fallback else v

/-- The message of the `Error` thrown on a non-OK response:
`error.detail || 'Request failed'`. -/
def thrownMessage (e : ErrBody) : String :=
  jsStrOr (caughtDetail e) "Request failed"

/-- `apiRequest` result: the parsed body on an OK response, otherwise a
thrown error carrying `thrownMessage`. -/
def apiRequest {α : Type} (resp : HttpResponse α) : Except String α :=
  if resp.ok then Except.ok resp.body else Except.error (thrownMessage resp.errBody)

/-! ## Component state -/

/-- The themed component's state: React `useState` fields plus the
persisted `token` key of local storage (`storedToken`). -/
structure AppState where
  questions : List Question
  currentQuestion : Option Question
  answers : List Answer
  user : Option User
  token : Option String
  storedToken : Option String
  authMode : String
  loading : Bool
  isChatOpen : Bool
  chatMessages : List ChatMsg
  chatInput : String
  searchQuery : String
  loginData : LoginData
  registerData : RegisterData
  questionData : QuestionData
  answerContent : String
deriving DecidableEq

/-- The slice of the generic variant's state touched by its
`handleCreateQuestion` (its form has no category/urgency fields). -/
structure AppStateG where
  questions : List Question
  token : Option String
  loading : Bool
  questionData : QuestionDataG
deriving DecidableEq

/-- The two top-level views: the component renders the auth screen exactly
when the token is falsy (`if (!token) return ...`). -/
inductive View where
  | authScreen
  | mainView
deriving DecidableEq

/-- The top-level render decision. -/
def render (st : AppState) : View :=
  if strTruthy st.token then View.mainView else View.authScreen

/-! ## Handlers -/

/-- `fetchQuestions`: `GET /api/questions`, replace the list wholesale on
success, log and leave state unchanged on failure. -/
def fetchQuestions (st : AppState) (resp : HttpResponse (List Question)) :
    AppState × List Effect :=
  let req := Effect.request "GET" "/api/questions" none (authHeader st.token)
  match apiRequest resp with
  | .ok qs => ({ st with questions := qs }, [req])
  | .error m => (st, [req, .consoleError ("Failed to fetch questions: " ++ m)])

/-- `fetchQuestion`: `Promise.all` of the question detail and its answers;
both state fields are set only when both requests succeed, otherwise the
rejection is logged and state is unchanged. -/
def fetchQuestion (st : AppState) (questionId : String)
    (respQ : HttpResponse Question) (respA : HttpResponse (List Answer)) :
    AppState × List Effect :=
  let reqQ := Effect.request "GET" ("/api/questions/" ++ questionId) none (authHeader st.token)
  let reqA := Effect.request "GET" ("/api/questions/" ++ questionId ++ "/answers") none
    (authHeader st.token)
  match apiRequest respQ, apiRequest respA with
  | .ok q, .ok ans =>
      ({ st with currentQuestion := some q, answers := ans }, [reqQ, reqA])
  | .error m, _ =>
      (st, [reqQ, reqA, .consoleError ("Failed to fetch question details: " ++ m)])
  | _, .error m =>
      (st, [reqQ, reqA, .consoleError ("Failed to fetch question details: " ++ m)])

/-- `fetchUser`: `GET /api/me`; on success store the profile, on failure
log, remove the persisted token and clear the token (forcing logout). -/
def fetchUser (st : AppState) (resp : HttpResponse User) : AppState × List Effect :=
  let req := Effect.request "GET" "/api/me" none (authHeader st.token)
  match apiRequest resp with
  | .ok u => ({ st with user := some u }, [req])
  | .error m =>
      ({ st with storedToken := none, token := none },
       [req, .consoleError ("Failed to fetch user: " ++ m)])

/-- `handleAuth`: POST the active form to `/api/login` or `/api/register`;
on success store the token (state and local storage) and reset both forms,
on failure show the error message in a blocking alert. -/
def handleAuth (st : AppState) (resp : HttpResponse AuthResponse) :
    AppState × List Effect :=
  let endpoint := if st.authMode = "login" then "/api/login" else "/api/register"
  let body := if st.authMode = "login" then ReqBody.loginBody st.loginData
              else ReqBody.registerBody st.registerData
  let req := Effect.request "POST" endpoint (some body) (authHeader st.token)
  match apiRequest resp with
  | .ok r =>
      ({ st with token := some r.access_token, storedToken := some r.access_token,
                 loginData := { username := "", password := "" },
                 registerData := { username := "", email := "", password := "",
                                   full_name := "", bio := "", origin_country := "",
                                   current_location := "", immigration_status := "" },
                 loading := false }, [req])
  | .error m => ({ st with loading := false }, [req, .alert m])

/-- Themed `handleCreateQuestion`: guard on a truthy token, parse the tags
field, POST the question with the selected category appended as one extra
tag, then reset the form and re-fetch the list; on failure alert. -/
def handleCreateQuestion (st : AppState) (resp : HttpResponse Unit)
    (respList : HttpResponse (List Question)) : AppState × List Effect :=
  if !(strTruthy st.token) then (st, [])
  else
    let tags := parseTags st.questionData.tags
    let body := ReqBody.createQuestion st.questionData.title st.questionData.content
      (tags ++ [st.questionData.category]) st.questionData.category st.questionData.urgency
    let req := Effect.request "POST" "/api/questions" (some body) (authHeader st.token)
    match apiRequest resp with
    | .ok _ =>
        let st2 := { st with loading := true,
                             questionData := { title := "", content := "", tags := "",
                                               category := "", urgency := "normal" } }
        let r := fetchQuestions st2 respList
        ({ r.1 with loading := false }, req :: r.2)
    | .error m => ({ st with loading := false }, [req, .alert m])

/-- Generic-variant `fetchQuestions` over the trimmed state slice. -/
def fetchQuestionsG (st : AppStateG) (resp : HttpResponse (List Question)) :
    AppStateG × List Effect :=
  let req := Effect.request "GET" "/api/questions" none (authHeader st.token)
  match apiRequest resp with
  | .ok qs => ({ st with questions := qs }, [req])
  | .error m => (st, [req, .consoleError ("Failed to fetch questions: " ++ m)])

/-- Generic `handleCreateQuestion`: identical tag parsing, but the body
carries only `title`, `content` and the parsed tags. -/
def handleCreateQuestionG (st : AppStateG) (resp : HttpResponse Unit)
    (respList : HttpResponse (List Question)) : AppStateG × List Effect :=
  if !(strTruthy st.token) then (st, [])
  else
    let body := ReqBody.createQuestionG st.questionData.title st.questionData.content
      (parseTags st.questionData.tags)
    let req := Effect.request "POST" "/api/questions" (some body) (authHeader st.token)
    match apiRequest resp with
    | .ok _ =>
        let st2 := { st with loading := true,
                             questionData := { title := "", content := "", tags := "" } }
        let r := fetchQuestionsG st2 respList
        ({ r.1 with loading := false }, req :: r.2)
    | .error m => ({ st with loading := false }, [req, .alert m])

/-- Themed `handleCreateAnswer`: guard on token and an open question, POST
the answer, fire the fact-check request whose failure is only logged, then
clear the buffer and re-fetch the open question; on POST failure alert. -/
def handleCreateAnswer (st : AppState) (respCreate : HttpResponse Answer)
    (respFact : HttpResponse Unit) (respQ : HttpResponse Question)
    (respA : HttpResponse (List Answer)) : AppState × List Effect :=
  if !(strTruthy st.token) then (st, [])
  else
    match st.currentQuestion with
    | none => (st, [])
    | some cq =>
      let reqC := Effect.request "POST" ("/api/questions/" ++ cq.id ++ "/answers")
        (some (ReqBody.createAnswer st.answerContent)) (authHeader st.token)
      match apiRequest respCreate with
      | .ok answer =>
          let reqF := Effect.request "POST" "/api/fact-check-answer"
            (some (ReqBody.factCheck answer.id cq.title st.answerContent))
            (authHeader st.token)
          let factEffs := match apiRequest respFact with
            | .ok _ => [reqF]
            | .error m => [reqF, Effect.consoleError ("Fact-check failed: " ++ m)]
          let st2 := { st with loading := true, answerContent := "" }
          let r := fetchQuestion st2 cq.id respQ respA
          ({ r.1 with loading := false }, reqC :: factEffs ++ r.2)
      | .error m => ({ st with loading := false }, [reqC, .alert m])

/-- `handleVote`: guard on a truthy token, then read `user.id` inside the
`try` block.  With a null user that read throws a `TypeError` which the
`catch` only logs: no request is issued and no re-fetch runs.  With a
signed-in user the vote is POSTed, and on success the open question (when
one is open) and the question list are re-fetched; on failure only log. -/
def handleVote (st : AppState) (targetId targetType : String) (value : Int)
    (respVote : HttpResponse Unit) (respQ : HttpResponse Question)
    (respA : HttpResponse (List Answer)) (respList : HttpResponse (List Question)) :
    AppState × List Effect :=
  if !(strTruthy st.token) then (st, [])
  else
    match st.user with
    | none =>
        (st, [Effect.consoleError "Vote failed: TypeError: user is null"])
    | some u =>
        let req := Effect.request "POST" "/api/vote"
          (some (ReqBody.vote u.id targetId targetType value)) (authHeader st.token)
        match apiRequest respVote with
        | .ok _ =>
            let r1 := match st.currentQuestion with
              | some cq => fetchQuestion st cq.id respQ respA
              | none => (st, [])
            let r2 := fetchQuestions r1.1 respList
            (r2.1, req :: r1.2 ++ r2.2)
        | .error m => (st, [req, .consoleError ("Vote failed: " ++ m)])

/-- Themed `handleChatMessage`: guard on non-blank input and a truthy
token; append the user turn and clear the input, then append the server's
response as an assistant (`"ai"`) turn, or the fixed fallback text on
failure. -/
def handleChatMessage (st : AppState) (resp : HttpResponse ChatResponse) :
    AppState × List Effect :=
  if (jsTrim st.chatInput == "") || !(strTruthy st.token) then (st, [])
  else
    let userMessage : ChatMsg := { text := st.chatInput, sender := "user" }
    let st1 := { st with chatMessages := st.chatMessages ++ [userMessage], chatInput := "" }
    let req := Effect.request "POST" "/api/immigration-chat"
      (some (ReqBody.chat st.chatInput)) (authHeader st.token)
    match apiRequest resp with
    | .ok r =>
        ({ st1 with chatMessages := st1.chatMessages ++ [{ text := r.response, sender := "ai" }] },
         [req])
    | .error m =>
        ({ st1 with chatMessages := st1.chatMessages ++
            [{ text := "Sorry, I encountered an error. Please try again.", sender := "ai" }] },
         [req, .consoleError ("Chat failed: " ++ m)])

/-- `handleSearch`: a blank (empty or whitespace-only) query re-fetches the
full list via `fetchQuestions`; a non-blank query GETs
`/api/search?q=<encoded>` and replaces the list with the results. -/
def handleSearch (st : AppState) (respSearch : HttpResponse (List Question))
    (respList : HttpResponse (List Question)) : AppState × List Effect :=
  if jsTrim st.searchQuery = "" then fetchQuestions st respList
  else
    let req := Effect.request "GET" ("/api/search?q=" ++ encodeURIComponent st.searchQuery)
      none (authHeader st.token)
    match apiRequest respSearch with
    | .ok results => ({ st with questions := results }, [req])
    | .error m => (st, [req, .consoleError ("Search failed: " ++ m)])

/-- `logout`: clear the token (state and local storage), the user, the open
question and its answers.  Every other field is untouched. -/
def logout (st : AppState) : AppState :=
  { st with token := none, user := none, storedToken := none,
            currentQuestion := none, answers := [] }

end QAApp

namespace QAApp

/-! ## Helpers for stating the claims -/

/-- The first effect's request body, when the handler's first effect is a
request. -/
def firstRequestBody : List Effect → Option ReqBody
  | Effect.request _ _ b _ :: _ => b
  | _ => none

/-- Does an effect issue a GET of the given URL? -/
def countGet (url : String) : List Effect → Nat
  | [] => 0
  | Effect.request m u _ _ :: rest =>
      (if m = "GET" ∧ u = url then 1 else 0) + countGet url rest
  | _ :: rest => countGet url rest

/-- Is an effect any GET request? -/
def isGetEffect : Effect → Bool
  | .request m _ _ _ => m == "GET"
  | _ => false

lemma detailUrl_ne_listUrl (s : String) :
    ("/api/questions/" ++ s) ≠ "/api/questions" := by
  intro h
  have h2 := congrArg String.length h
  rw [String.length_append] at h2
  have e1 : ("/api/questions/" : String).length = 15 := rfl
  have e2 : ("/api/questions" : String).length = 14 := rfl
  omega

lemma answersUrl_ne_listUrl (s : String) :
    ("/api/questions/" ++ s ++ "/answers") ≠ "/api/questions" := by
  intro h
  have h2 := congrArg String.length h
  rw [String.length_append, String.length_append] at h2
  have e1 : ("/api/questions/" : String).length = 15 := rfl
  have e2 : ("/api/questions" : String).length = 14 := rfl
  have e3 : ("/answers" : String).length = 8 := rfl
  omega

lemma answersUrl_ne_detailUrl (s : String) :
    ("/api/questions/" ++ s ++ "/answers") ≠ ("/api/questions/" ++ s) := by
  intro h
  have h2 := congrArg String.length h
  rw [String.length_append, String.length_append] at h2
  have e3 : ("/answers" : String).length = 8 := rfl
  omega

/-! ## Sample values used by the witnesses -/

def sampleUser : User :=
  { id := "u1", username := "alice", full_name := "Alice A", reputation := 3 }

def sampleQuestion : Question :=
  { id := "q1", title := "T", content := "C", author_username := "alice",
    tags := ["a"], votes := 0, views := 1, answers_count := 0,
    created_at := "2024-01-01", urgency := "normal" }

def sampleState : AppState :=
  { questions := [], currentQuestion := some sampleQuestion, answers := [],
    user := some sampleUser, token := some "tok", storedToken := some "tok",
    authMode := "login", loading := false, isChatOpen := false,
    chatMessages := [], chatInput := "hello", searchQuery := "",
    loginData := { username := "", password := "" },
    registerData := { username := "", email := "", password := "", full_name := "",
                      bio := "", origin_country := "", current_location := "",
                      immigration_status := "" },
    questionData := { title := "Ti", content := "Co", tags := "a, b",
                      category := "employment", urgency := "normal" },
    answerContent := "ans" }

def anonState : AppState :=
  { sampleState with token := none, storedToken := none, user := none }

def searchState : AppState :=
  { sampleState with searchQuery := "a b" }

def sampleStateG : AppStateG :=
  { questions := [], token := some "tok", loading := false,
    questionData := { title := "Ti", content := "Co", tags := "a, b" } }

def okUnit : HttpResponse Unit :=
  { ok := true, body := (), errBody := ErrBody.parsed none }

def errUnit : HttpResponse Unit :=
  { ok := false, body := (), errBody := ErrBody.parsed (some "bad") }

def okListQ : HttpResponse (List Question) :=
  { ok := true, body := [sampleQuestion], errBody := ErrBody.parsed none }

def okQ : HttpResponse Question :=
  { ok := true, body := sampleQuestion, errBody := ErrBody.parsed none }

def okAns : HttpResponse (List Answer) :=
  { ok := true, body := [], errBody := ErrBody.parsed none }

def errUserR : HttpResponse User :=
  { ok := false, body := sampleUser, errBody := ErrBody.parsed (some "Unauthorized") }

def okChat : HttpResponse ChatResponse :=
  { ok := true, body := { response := "hi there" }, errBody := ErrBody.parsed none }

def errAuthR : HttpResponse AuthResponse :=
  { ok := false, body := { access_token := "" },
    errBody := ErrBody.parsed (some "Invalid credentials") }

def okAnswerR : HttpResponse Answer :=
  { ok := true,
    body := { id := "a1", content := "ans", author_username := "alice", votes := 0,
              created_at := "2024-01-02" },
    errBody := ErrBody.parsed none }

/-! ## Claims -/

/-- C1: with a truthy token, `handleCreateQuestion` sends a tag list
obtained by splitting the tags field on commas, trimming each piece and
dropping empty pieces; the themed variant appends the selected category as
one final extra tag while the generic variant sends only the parsed tags;
on tags `"a, b"` and category `"employment"` this yields
`["a","b","employment"]` (themed) resp. `["a","b"]` (generic). -/
theorem claim_C1_question_tags :
    ∀ (st : AppState) (stG : AppStateG) (resp respG : HttpResponse Unit)
      (rl rlG : HttpResponse (List Question)),
    strTruthy st.token = true → strTruthy stG.token = true →
    (firstRequestBody (handleCreateQuestion st resp rl).2 =
       some (ReqBody.createQuestion st.questionData.title st.questionData.content
         (parseTags st.questionData.tags ++ [st.questionData.category])
         st.questionData.category st.questionData.urgency)) ∧
    (firstRequestBody (handleCreateQuestionG stG respG rlG).2 =
       some (ReqBody.createQuestionG stG.questionData.title stG.questionData.content
         (parseTags stG.questionData.tags))) ∧
    parseTags "a, b" = ["a", "b"] ∧
    parseTags "a, b" ++ ["employment"] = ["a", "b", "employment"] := by
  intro st stG resp respG rl rlG h1 h2
  refine ⟨?_, ?_, by decide, by decide⟩
  · rcases hr : apiRequest resp with m | u <;>
      simp [handleCreateQuestion, h1, hr, firstRequestBody, fetchQuestions]
  · rcases hr : apiRequest respG with m | u <;>
      simp [handleCreateQuestionG, h2, hr, firstRequestBody, fetchQuestionsG]

/-- C1 witness: concrete instantiation with tags `"a, b"` and category
`"employment"`. -/
theorem claim_C1_question_tags_witness :
    strTruthy sampleState.token = true ∧
    firstRequestBody (handleCreateQuestion sampleState okUnit okListQ).2 =
      some (ReqBody.createQuestion sampleState.questionData.title
        sampleState.questionData.content
        (parseTags sampleState.questionData.tags ++ [sampleState.questionData.category])
        sampleState.questionData.category sampleState.questionData.urgency) ∧
    parseTags "a, b" ++ ["employment"] = ["a", "b", "employment"] :=
  ⟨by decide,
   (claim_C1_question_tags sampleState sampleStateG okUnit okUnit okListQ okListQ
      (by decide) (by decide)).1,
   (claim_C1_question_tags sampleState sampleStateG okUnit okUnit okListQ okListQ
      (by decide) (by decide)).2.2.2⟩

/-- C2 counterexample: a token that is present but empty gets no
`Authorization` header, because the code tests JavaScript truthiness
(`token && ...`), not mere presence. -/
theorem claim_C2_counterexample :
    (some "" : Option String).isSome = true ∧ authHeader (some "") = none := by
  decide

/-- C2 (amended): `apiRequest` attaches the bearer header exactly when a
non-empty token is present; on a non-OK response it throws the server
payload's non-empty `detail`, or `"Network error"` when the body does not
parse as JSON, or `"Request failed"` when the parsed payload lacks a
detail; on an OK response it returns the parsed body. -/
theorem claim_C2_api_gateway :
    ∀ (token : Option String) {α : Type} (resp : HttpResponse α),
    ((authHeader token).isSome ↔ ∃ t, token = some t ∧ t ≠ "") ∧
    (∀ t, token = some t → t ≠ "" → authHeader token = some ("Bearer " ++ t)) ∧
    (resp.ok = true → apiRequest resp = Except.ok resp.body) ∧
    (resp.ok = false → resp.errBody = ErrBody.unparsable →
       apiRequest resp = Except.error "Network error") ∧
    (resp.ok = false → resp.errBody = ErrBody.parsed none →
       apiRequest resp = Except.error "Request failed") ∧
    (∀ d, resp.ok = false → resp.errBody = ErrBody.parsed (some d) → d ≠ "" →
       apiRequest resp = Except.error d) := by
  intro token α resp
  refine ⟨?_, ?_, ?_, ?_, ?_, ?_⟩
  · cases token with
    | none => simp [authHeader]
    | some t =>
        by_cases ht : t = "" <;> simp [authHeader, ht]
  · intro t htk hne
    subst htk
    simp [authHeader, hne]
  · intro h
    simp [apiRequest, h]
  · intro h he
    simp [apiRequest, h, he, thrownMessage, caughtDetail, jsStrOr]
  · intro h he
    simp [apiRequest, h, he, thrownMessage, caughtDetail, jsStrOr]
  · intro d h he hd
    simp [apiRequest, h, he, thrownMessage, caughtDetail, jsStrOr, hd]

/-- C2 witness: a non-OK unparsable body throws `"Network error"`, and a
non-empty token yields a bearer header. -/
theorem claim_C2_api_gateway_witness :
    apiRequest ({ ok := false, body := 0, errBody := ErrBody.unparsable } : HttpResponse Nat) =
      Except.error "Network error" ∧
    authHeader (some "tok") = some "Bearer tok" :=
  ⟨(claim_C2_api_gateway (some "tok")
      ({ ok := false, body := 0, errBody := ErrBody.unparsable } : HttpResponse Nat)).2.2.2.1
      rfl rfl,
   (claim_C2_api_gateway (some "tok")
      ({ ok := false, body := 0, errBody := ErrBody.unparsable } : HttpResponse Nat)).2.1
      "tok" rfl (by decide)⟩

end QAApp
namespace QAApp

/-- C3: for every vote target and direction, a successful `handleVote`
call (truthy token, signed-in user so the `user.id` read does not throw,
vote request OK) issues exactly one re-fetch of the question list, and
exactly one re-fetch of the open question and of its answers when a
question is open; the resulting state and the set of GET requests are
independent of the vote value, and the questions list afterwards is the
re-fetched server data — no local optimistic update of any vote count. -/
theorem claim_C3_vote_refetch :
    ∀ (st : AppState) (u : User) (targetId targetType : String) (v : Int)
      (rv : HttpResponse Unit) (rq : HttpResponse Question)
      (ra : HttpResponse (List Answer)) (rl : HttpResponse (List Question)),
    strTruthy st.token = true → st.user = some u → rv.ok = true →
    countGet "/api/questions" (handleVote st targetId targetType v rv rq ra rl).2 = 1 ∧
    (∀ cq, st.currentQuestion = some cq →
       countGet ("/api/questions/" ++ cq.id)
         (handleVote st targetId targetType v rv rq ra rl).2 = 1 ∧
       countGet ("/api/questions/" ++ cq.id ++ "/answers")
         (handleVote st targetId targetType v rv rq ra rl).2 = 1) ∧
    (st.currentQuestion = none →
       ((handleVote st targetId targetType v rv rq ra rl).2.filter isGetEffect).length = 1) ∧
    (∀ v2 : Int,
       (handleVote st targetId targetType v2 rv rq ra rl).1 =
         (handleVote st targetId targetType v rv rq ra rl).1 ∧
       (handleVote st targetId targetType v2 rv rq ra rl).2.filter isGetEffect =
         (handleVote st targetId targetType v rv rq ra rl).2.filter isGetEffect) ∧
    (rl.ok = true → (handleVote st targetId targetType v rv rq ra rl).1.questions = rl.body) := by
  intro st u tid tty v rv rq ra rl h1 hu h2
  have hv : apiRequest rv = Except.ok rv.body := by simp [apiRequest, h2]
  refine ⟨?_, ?_, ?_, ?_, ?_⟩
  · cases hcq : st.currentQuestion with
    | none =>
        rcases hl : apiRequest rl with m | qs <;>
          simp [handleVote, h1, hu, hv, hcq, fetchQuestions, hl, countGet]
    | some cq =>
        have d1 := detailUrl_ne_listUrl cq.id
        have d2 := answersUrl_ne_listUrl cq.id
        rcases hq : apiRequest rq with m | q <;>
          rcases ha : apiRequest ra with m2 | ans <;>
            rcases hl : apiRequest rl with m3 | qs <;>
              simp [handleVote, h1, hu, hv, hcq, fetchQuestion, fetchQuestions, hq, ha, hl,
                countGet, d1, d2]
  · intro cq hcq
    have d1 := Ne.symm (detailUrl_ne_listUrl cq.id)
    have d2 := Ne.symm (answersUrl_ne_listUrl cq.id)
    have d3 := answersUrl_ne_detailUrl cq.id
    have d4 := Ne.symm d3
    refine ⟨?_, ?_⟩ <;>
      (rcases hq : apiRequest rq with m | q <;>
        rcases ha : apiRequest ra with m2 | ans <;>
          rcases hl : apiRequest rl with m3 | qs <;>
            simp [handleVote, h1, hu, hv, hcq, fetchQuestion, fetchQuestions, hq, ha, hl,
              countGet, d1, d2, d3, d4])
  · intro hcq
    rcases hl : apiRequest rl with m | qs <;>
      simp [handleVote, h1, hu, hv, hcq, fetchQuestions, hl, isGetEffect, List.filter]
  · intro v2
    cases hcq : st.currentQuestion with
    | none =>
        rcases hl : apiRequest rl with m | qs <;>
          simp [handleVote, h1, hu, hv, hcq, fetchQuestions, hl, isGetEffect, List.filter]
    | some cq =>
        rcases hq : apiRequest rq with m | q <;>
          rcases ha : apiRequest ra with m2 | ans <;>
            rcases hl : apiRequest rl with m3 | qs <;>
              simp [handleVote, h1, hu, hv, hcq, fetchQuestion, fetchQuestions, hq, ha, hl,
                isGetEffect, List.filter]
  · intro hok
    have hl : apiRequest rl = Except.ok rl.body := by simp [apiRequest, hok]
    cases hcq : st.currentQuestion with
    | none => simp [handleVote, h1, hu, hv, hcq, fetchQuestions, hl]
    | some cq =>
        rcases hq : apiRequest rq with m | q <;>
          rcases ha : apiRequest ra with m2 | ans <;>
            simp [handleVote, h1, hu, hv, hcq, fetchQuestion, fetchQuestions, hq, ha, hl]

end QAApp
namespace QAApp

def noQState : AppState :=
  { sampleState with currentQuestion := none }

def noUserState : AppState :=
  { sampleState with user := none }

/-- C3 witness: concrete successful vote from a signed-in state re-fetches
the question list exactly once. -/
theorem claim_C3_vote_refetch_witness :
    strTruthy sampleState.token = true ∧ sampleState.user = some sampleUser ∧
    countGet "/api/questions"
      (handleVote sampleState "q1" "question" 1 okUnit okQ okAns okListQ).2 = 1 :=
  ⟨by decide, rfl,
   (claim_C3_vote_refetch sampleState sampleUser "q1" "question" 1 okUnit okQ okAns okListQ
      (by decide) rfl rfl).1⟩

/-- C4: with a truthy token, a failed vote request (issued from a
signed-in state) leaves the whole state unchanged and only logs; when the
user is still null the `user.id` read throws inside the `try` and the
failure is likewise only logged with the state unchanged; the fact-check
outcome has no influence on `handleCreateAnswer`'s resulting state; and a
failed `/api/me` fetch clears the token from state and local storage while
leaving user, questions, currentQuestion and answers untouched. -/
theorem claim_C4_background_failures :
    ∀ (st : AppState) (u : User) (targetId targetType : String) (v : Int)
      (rq : HttpResponse Question) (ra : HttpResponse (List Answer))
      (rl : HttpResponse (List Question)),
    strTruthy st.token = true →
    (∀ rv : HttpResponse Unit, st.user = some u → rv.ok = false →
       (handleVote st targetId targetType v rv rq ra rl).1 = st ∧
       (handleVote st targetId targetType v rv rq ra rl).2 =
         [Effect.request "POST" "/api/vote"
            (some (ReqBody.vote u.id targetId targetType v)) (authHeader st.token),
          Effect.consoleError ("Vote failed: " ++ thrownMessage rv.errBody)]) ∧
    (∀ rv : HttpResponse Unit, st.user = none →
       (handleVote st targetId targetType v rv rq ra rl).1 = st ∧
       (handleVote st targetId targetType v rv rq ra rl).2 =
         [Effect.consoleError "Vote failed: TypeError: user is null"]) ∧
    (∀ (rc : HttpResponse Answer) (rf1 rf2 : HttpResponse Unit),
       (handleCreateAnswer st rc rf1 rq ra).1 = (handleCreateAnswer st rc rf2 rq ra).1) ∧
    (∀ ru : HttpResponse User, ru.ok = false →
       (fetchUser st ru).1.token = none ∧
       (fetchUser st ru).1.storedToken = none ∧
       (fetchUser st ru).1.user = st.user ∧
       (fetchUser st ru).1.questions = st.questions ∧
       (fetchUser st ru).1.currentQuestion = st.currentQuestion ∧
       (fetchUser st ru).1.answers = st.answers) := by
  intro st u tid tty v rq ra rl h1
  refine ⟨?_, ?_, ?_, ?_⟩
  · intro rv hu hok
    have hv : apiRequest rv = Except.error (thrownMessage rv.errBody) := by
      simp [apiRequest, hok]
    constructor <;> simp [handleVote, h1, hu, hv]
  · intro rv hu
    constructor <;> simp [handleVote, h1, hu]
  · intro rc rf1 rf2
    cases hcq : st.currentQuestion with
    | none => simp [handleCreateAnswer, hcq]
    | some cq =>
        rcases hc : apiRequest rc with m | a
        · simp [handleCreateAnswer, h1, hcq, hc]
        · rcases hf1 : apiRequest rf1 with m1 | u1 <;>
            rcases hf2 : apiRequest rf2 with m2 | u2 <;>
              simp [handleCreateAnswer, h1, hcq, hc, hf1, hf2]
  · intro ru hok
    have hu : apiRequest ru = Except.error (thrownMessage ru.errBody) := by
      simp [apiRequest, hok]
    simp [fetchUser, hu]

/-- C4 witness: a concrete failed vote (signed-in and null-user states)
leaves the state unchanged, and a concrete failed `/api/me` clears the
token. -/
theorem claim_C4_background_failures_witness :
    (handleVote sampleState "q1" "question" 1 errUnit okQ okAns okListQ).1 = sampleState ∧
    (handleVote noUserState "q1" "question" 1 errUnit okQ okAns okListQ).1 = noUserState ∧
    (fetchUser sampleState errUserR).1.token = none :=
  ⟨((claim_C4_background_failures sampleState sampleUser "q1" "question" 1 okQ okAns okListQ
      (by decide)).1 errUnit rfl rfl).1,
   ((claim_C4_background_failures noUserState sampleUser "q1" "question" 1 okQ okAns okListQ
      (by decide)).2.1 errUnit rfl).1,
   ((claim_C4_background_failures sampleState sampleUser "q1" "question" 1 okQ okAns okListQ
      (by decide)).2.2.2 errUserR rfl).1⟩

/-- C5: `logout` sets the token to none, removes the persisted token,
clears the user, the current question and the answers list, after which
the component renders the auth screen (the no-token branch). -/
theorem claim_C5_logout_clears (st : AppState) :
    (logout st).token = none ∧ (logout st).storedToken = none ∧
    (logout st).user = none ∧ (logout st).currentQuestion = none ∧
    (logout st).answers = [] ∧ render (logout st) = View.authScreen := by
  refine ⟨rfl, rfl, rfl, rfl, rfl, ?_⟩
  simp [logout, render, strTruthy]

/-- C6: `handleSearch` with an empty or whitespace-only query delegates to
`fetchQuestions`, restoring the full unfiltered list; a non-blank query
GETs `/api/search?q=<URL-encoded query>` and replaces the questions list
wholesale with the results. -/
theorem claim_C6_search :
    ∀ (st : AppState) (respSearch respList : HttpResponse (List Question)),
    (jsTrim st.searchQuery = "" →
       handleSearch st respSearch respList = fetchQuestions st respList ∧
       (respList.ok = true →
          (handleSearch st respSearch respList).1.questions = respList.body) ∧
       (handleSearch st respSearch respList).2.head? =
         some (Effect.request "GET" "/api/questions" none (authHeader st.token))) ∧
    (jsTrim st.searchQuery ≠ "" →
       (handleSearch st respSearch respList).2.head? =
         some (Effect.request "GET"
           ("/api/search?q=" ++ encodeURIComponent st.searchQuery) none
           (authHeader st.token)) ∧
       (respSearch.ok = true →
          (handleSearch st respSearch respList).1.questions = respSearch.body)) := by
  intro st rs rl
  constructor
  · intro hq
    refine ⟨by simp [handleSearch, hq], ?_, ?_⟩
    · intro hok
      simp [handleSearch, hq, fetchQuestions, apiRequest, hok]
    · rcases hl : apiRequest rl with m | qs <;>
        simp [handleSearch, hq, fetchQuestions, hl]
  · intro hq
    constructor
    · rcases hr : apiRequest rs with m | qs <;> simp [handleSearch, hq, hr]
    · intro hok
      simp [handleSearch, hq, apiRequest, hok]

/-- C6 witness: a blank query restores the full list, and the query
`"a b"` is sent URL-encoded as `a%20b`. -/
theorem claim_C6_search_witness :
    jsTrim sampleState.searchQuery = "" ∧
    (handleSearch sampleState okListQ okListQ).1.questions = okListQ.body ∧
    jsTrim searchState.searchQuery ≠ "" ∧
    (handleSearch searchState okListQ okListQ).2.head? =
      some (Effect.request "GET" "/api/search?q=a%20b" none (some "Bearer tok")) := by
  refine ⟨by decide, ((claim_C6_search sampleState okListQ okListQ).1 (by decide)).2.1 rfl,
    by decide, ?_⟩
  have h := ((claim_C6_search searchState okListQ okListQ).2 (by decide)).1
  have e1 : ("/api/search?q=" ++ encodeURIComponent searchState.searchQuery) =
      "/api/search?q=a%20b" := by decide
  have e2 : authHeader searchState.token = some "Bearer tok" := by decide
  rw [← e1, ← e2]
  exact h

/-- C7: a failed login leaves the token unset in state and local storage,
surfaces the thrown error message via a blocking alert, and the component
still renders the auth screen. -/
theorem claim_C7_failed_login :
    ∀ (st : AppState) (resp : HttpResponse AuthResponse),
    resp.ok = false → st.token = none → st.storedToken = none →
    (handleAuth st resp).1.token = none ∧
    (handleAuth st resp).1.storedToken = none ∧
    Effect.alert (thrownMessage resp.errBody) ∈ (handleAuth st resp).2 ∧
    render (handleAuth st resp).1 = View.authScreen := by
  intro st resp hok ht hs
  have he : apiRequest resp = Except.error (thrownMessage resp.errBody) := by
    simp [apiRequest, hok]
  refine ⟨?_, ?_, ?_, ?_⟩ <;> simp [handleAuth, he, ht, hs, render, strTruthy]

/-- C7 witness: a concrete failing auth response from the anonymous state
leaves the token unset and the view on the auth screen. -/
theorem claim_C7_failed_login_witness :
    (handleAuth anonState errAuthR).1.token = none ∧
    render (handleAuth anonState errAuthR).1 = View.authScreen :=
  ⟨(claim_C7_failed_login anonState errAuthR rfl rfl rfl).1,
   (claim_C7_failed_login anonState errAuthR rfl rfl rfl).2.2.2⟩

/-- C8: a `handleChatMessage` run with non-blank input and a truthy token
grows the transcript by exactly two messages — first the user's text,
then an assistant (`"ai"`) turn carrying the server response on success or
the fixed fallback message on failure — and clears the input buffer. -/
theorem claim_C8_chat_transcript :
    ∀ (st : AppState) (resp : HttpResponse ChatResponse),
    jsTrim st.chatInput ≠ "" → strTruthy st.token = true →
    (handleChatMessage st resp).1.chatMessages =
      st.chatMessages ++
        [{ text := st.chatInput, sender := "user" },
         { text := if resp.ok then resp.body.response
                   else "Sorry, I encountered an error. Please try again.",
           sender := "ai" }] ∧
    (handleChatMessage st resp).1.chatMessages.length = st.chatMessages.length + 2 ∧
    (handleChatMessage st resp).1.chatInput = "" := by
  intro st resp h1 h2
  have hb : (jsTrim st.chatInput == "") = false := by
    simpa using h1
  cases hok : resp.ok with
  | true =>
      have hr : apiRequest resp = Except.ok resp.body := by simp [apiRequest, hok]
      refine ⟨?_, ?_, ?_⟩ <;> simp [handleChatMessage, hb, h2, hr, hok]
  | false =>
      have hr : apiRequest resp = Except.error (thrownMessage resp.errBody) := by
        simp [apiRequest, hok]
      refine ⟨?_, ?_, ?_⟩ <;> simp [handleChatMessage, hb, h2, hr, hok]

/-- C8 witness: a concrete successful chat run appends the user turn and
the assistant turn. -/
theorem claim_C8_chat_transcript_witness :
    jsTrim sampleState.chatInput ≠ "" ∧
    (handleChatMessage sampleState okChat).1.chatMessages =
      sampleState.chatMessages ++
        [{ text := sampleState.chatInput, sender := "user" },
         { text := if okChat.ok then okChat.body.response
                   else "Sorry, I encountered an error. Please try again.",
           sender := "ai" }] :=
  ⟨by decide, (claim_C8_chat_transcript sampleState okChat (by decide) (by decide)).1⟩

/-- C9: with no token, `handleCreateQuestion`, `handleCreateAnswer`,
`handleVote` and `handleChatMessage` return immediately — no request and
no state change; `handleCreateAnswer` is likewise a no-op with a token but
no open question. -/
theorem claim_C9_guard_no_token :
    ∀ (st st2 : AppState) (targetId targetType : String) (v : Int)
      (rv ru : HttpResponse Unit) (rq : HttpResponse Question)
      (ra : HttpResponse (List Answer)) (rl : HttpResponse (List Question))
      (rc : HttpResponse Answer) (rchat : HttpResponse ChatResponse),
    st.token = none →
    handleCreateQuestion st ru rl = (st, []) ∧
    handleCreateAnswer st rc ru rq ra = (st, []) ∧
    handleVote st targetId targetType v rv rq ra rl = (st, []) ∧
    handleChatMessage st rchat = (st, []) ∧
    (strTruthy st2.token = true → st2.currentQuestion = none →
       handleCreateAnswer st2 rc ru rq ra = (st2, [])) := by
  intro st st2 tid tty v rv ru rq ra rl rc rchat h
  have ht : strTruthy st.token = false := by simp [strTruthy, h]
  refine ⟨by simp [handleCreateQuestion, ht], by simp [handleCreateAnswer, ht],
    by simp [handleVote, ht], by simp [handleChatMessage, ht], ?_⟩
  intro h2 hcq
  simp [handleCreateAnswer, h2, hcq]

/-- C9 witness: concrete no-token and no-open-question states are left
untouched with an empty effect list. -/
theorem claim_C9_guard_no_token_witness :
    anonState.token = none ∧
    handleVote anonState "q1" "question" 1 okUnit okQ okAns okListQ = (anonState, []) ∧
    handleCreateAnswer noQState okAnswerR okUnit okQ okAns = (noQState, []) :=
  ⟨rfl,
   (claim_C9_guard_no_token anonState sampleState "q1" "question" 1 okUnit okUnit okQ
      okAns okListQ okAnswerR okChat rfl).2.2.1,
   (claim_C9_guard_no_token anonState noQState "q1" "question" 1 okUnit okUnit okQ
      okAns okListQ okAnswerR okChat rfl).2.2.2.2 (by decide) rfl⟩

/-- C10: `logout` leaves the questions list, the chat transcript, the
search query and every form input buffer unchanged, and after a subsequent
`handleAuth` (re-login) the previous session's transcript is still the
state's `chatMessages`. -/
theorem claim_C10_logout_frame :
    ∀ (st : AppState) (resp : HttpResponse AuthResponse),
    (logout st).questions = st.questions ∧
    (logout st).chatMessages = st.chatMessages ∧
    (logout st).searchQuery = st.searchQuery ∧
    (logout st).chatInput = st.chatInput ∧
    (logout st).loginData = st.loginData ∧
    (logout st).registerData = st.registerData ∧
    (logout st).questionData = st.questionData ∧
    (logout st).answerContent = st.answerContent ∧
    (handleAuth (logout st) resp).1.chatMessages = st.chatMessages := by
  intro st resp
  refine ⟨rfl, rfl, rfl, rfl, rfl, rfl, rfl, rfl, ?_⟩
  rcases hr : apiRequest resp with m | r <;> simp [handleAuth, hr, logout]

end QAApp
